import Mathlib

/-!
# Verification of the OBS python HTTP/OSC/MIDI bridge scripts

Shallow embedding of `src/http_server.py`, `src/osc_io.py` and `src/midi_io.py`.
Python strings are Lean `String`s, but every string operation used by the
scripts (`startswith`, `endswith`, `split`, `join`, ...) is re-implemented
structurally over `List Char` so that closed instances evaluate inside the
kernel.  Python dictionaries parsed from JSON are modelled by the `Json`
inductive; JSON-body fields that the handlers use as strings are modelled as
`Option String` (absent key ↦ `none`).  Filesystem state is an association
list from normalized absolute path to file content; exceptions are modelled
by `Except`/explicit error results at the points where the scripts can raise.
-/

/-- Split a character list at every occurrence of `sep`, as Python `str.split(sep)`. -/
def chSplit (sep : Char) : List Char → List (List Char)
  | [] => [[]]
  | c :: cs =>
    let r := chSplit sep cs
    if c = sep then [] :: r
    else
      match r with
      | [] => [[c]]
      | g :: gs => (c :: g) :: gs

/-- Join character-list groups with a separator list, as Python `sep.join(parts)`. -/
def chJoin (sep : List Char) : List (List Char) → List Char
  | [] => []
  | [g] => g
  | g :: gs => g ++ sep ++ chJoin sep gs

/-- Python `s.startswith(t)`. -/
def pyStarts (s t : String) : Bool := t.data.isPrefixOf s.data

/-- Python `s.endswith(t)`. -/
def pyEnds (s t : String) : Bool := t.data.isSuffixOf s.data

/-- Python truthiness of an optional string (`None` and `""` are falsy). -/
def pyFalsy : Option String → Bool
  | none => true
  | some s => s = ""

/-- ASCII whitespace, as skipped by Python `bytes.fromhex` / stripped by `int(str)`. -/
def isPySpace (c : Char) : Bool :=
  c = ' ' ∨ c = '\t' ∨ c = '\n' ∨ c = '\r' ∨ c = '\x0b' ∨ c = '\x0c'

/-- Decimal digit test. -/
def isPyDigit (c : Char) : Bool := '0' ≤ c ∧ c ≤ '9'

/-- Accumulate the value of a digit run; `none` on any non-digit. -/
def digitsValAux : List Char → Nat → Option Nat
  | [], acc => some acc
  | c :: cs, acc =>
    if isPyDigit c then digitsValAux cs (acc * 10 + (c.toNat - 48)) else none

/-- Python `int(s)` for a string: optional surrounding whitespace, optional
sign, a nonempty digit run; anything else raises (modelled as `none`). -/
def pyIntOfString (s : String) : Option Int :=
  let t := ((s.data.dropWhile isPySpace).reverse.dropWhile isPySpace).reverse
  match t with
  | [] => none
  | '+' :: ds =>
    match ds with
    | [] => none
    | _ => (digitsValAux ds 0).map Int.ofNat
  | '-' :: ds =>
    match ds with
    | [] => none
    | _ => (digitsValAux ds 0).map (fun n => -(Int.ofNat n))
  | ds => (digitsValAux ds 0).map Int.ofNat

/-- JSON values as produced by `json.loads` (ints only; the scripts never
depend on float payloads). -/
inductive Json where
  | null
  | bool (b : Bool)
  | int (n : Int)
  | str (s : String)
  | arr (xs : List Json)
  | obj (kvs : List (String × Json))

/-- Lower-case hex rendering of `n % 16`. -/
def hexDigitChar (n : Nat) : Char :=
  let v := n % 16
  if v < 10 then Char.ofNat (v + 48) else Char.ofNat (v - 10 + 97)

/-- Four-digit hex rendering used by `\uXXXX` escapes. -/
def hex4 (n : Nat) : String :=
  String.mk [hexDigitChar (n / 4096), hexDigitChar (n / 256), hexDigitChar (n / 16), hexDigitChar n]

/-- Escape one character as CPython `json.dump` (`ensure_ascii=True`) does;
characters beyond the BMP are approximated by a single `\uXXXX` escape. -/
def escChar (c : Char) : String :=
  if c = '"' then "\\\""
  else if c = '\\' then "\\\\"
  else if c = '\n' then "\\n"
  else if c = '\t' then "\\t"
  else if c = '\r' then "\\r"
  else if c.toNat = 8 then "\\b"
  else if c.toNat = 12 then "\\f"
  else if c.toNat < 32 ∨ c.toNat > 126 then "\\u" ++ hex4 c.toNat
  else String.mk [c]

/-- Escape a whole string for a JSON string literal. -/
def jsonEscape (s : String) : String := String.mk (List.flatten (s.data.map (fun c => (escChar c).data)))

/-- Kernel-reducible decimal rendering of a natural number (fuel-based). -/
def natDigitsAux : Nat → Nat → List Char
  | 0, _ => []
  | fuel + 1, n => if n = 0 then [] else natDigitsAux fuel (n / 10) ++ [Char.ofNat (n % 10 + 48)]

/-- Decimal rendering of a natural number. -/
def natToStr (n : Nat) : String := if n = 0 then "0" else String.mk (natDigitsAux (n + 1) n)

/-- Decimal rendering of an integer. -/
def intToStr : Int → String
  | .ofNat n => natToStr n
  | .negSucc n => "-" ++ natToStr (n + 1)

/-- Indent string used by `json.dump(..., indent=2)` at nesting level `lvl`. -/
def indStr (lvl : Nat) : String := String.mk (List.replicate (2 * lvl) ' ')

mutual
/-- Translation of CPython `json.dump(value, f, indent=2)` (default separators
`(",", ": ")`, `ensure_ascii=True`, insertion key order). -/
def jsonDump : Json → Nat → String
  | .null, _ => "null"
  | .bool true, _ => "true"
  | .bool false, _ => "false"
  | .int n, _ => intToStr n
  | .str s, _ => "\"" ++ jsonEscape s ++ "\""
  | .arr [], _ => "[]"
  | .arr (x :: xs), lvl =>
      "[\n" ++ indStr (lvl + 1) ++
        String.mk (chJoin (",\n" ++ indStr (lvl + 1)).data
          ((jsonDumpList (x :: xs) (lvl + 1)).map String.data)) ++
      "\n" ++ indStr lvl ++ "]"
  | .obj [], _ => "\x7b\x7d"
  | .obj (kv :: kvs), lvl =>
      "\x7b\n" ++ indStr (lvl + 1) ++
        String.mk (chJoin (",\n" ++ indStr (lvl + 1)).data
          ((jsonDumpObj (kv :: kvs) (lvl + 1)).map String.data)) ++
      "\n" ++ indStr lvl ++ "\x7d"

/-- Renderings of the elements of a JSON array. -/
def jsonDumpList : List Json → Nat → List String
  | [], _ => []
  | x :: xs, lvl => jsonDump x lvl :: jsonDumpList xs lvl

/-- Renderings of the `"key": value` items of a JSON object. -/
def jsonDumpObj : List (String × Json) → Nat → List String
  | [], _ => []
  | (k, v) :: kvs, lvl =>
      ("\"" ++ jsonEscape k ++ "\": " ++ jsonDump v lvl) :: jsonDumpObj kvs lvl
end

/-- `dict.get(k, dflt)` on an association list parsed from a JSON object. -/
def dictGet (kvs : List (String × Json)) (k : String) (dflt : Json) : Json :=
  match kvs.find? (fun kv => kv.1 == k) with
  | some kv => kv.2
  | none => dflt

/-- `k in dict` on an association list parsed from a JSON object. -/
def dictHas (kvs : List (String × Json)) (k : String) : Bool :=
  (kvs.find? (fun kv => kv.1 == k)).isSome

/-- Translation of CPython `posixpath.normpath` (pure string rewriting: no
symlink resolution, exactly what `os.path.normpath` does on POSIX). -/
def normpath (path : String) : String :=
  if path = "" then "."
  else
    let slashes : Nat :=
      if pyStarts path "/" then
        if pyStarts path "//" ∧ ¬ pyStarts path "///" then 2 else 1
      else 0
    let comps := chSplit '/' path.data
    let newComps := comps.foldl (fun acc comp =>
      if comp = [] ∨ comp = ['.'] then acc
      else if comp ≠ ['.', '.'] ∨ (slashes = 0 ∧ acc = []) ∨ acc.getLast? = some ['.', '.'] then
        acc ++ [comp]
      else acc.dropLast) []
    let res := String.mk (List.replicate slashes '/' ++ chJoin ['/'] newComps)
    if res = "" then "." else res

/-- Translation of CPython `posixpath.join` restricted to two arguments,
as used by `os.path.join(a, b)` in `http_server.py`. -/
def joinPath (a b : String) : String :=
  if pyStarts b "/" then b
  else if a = "" ∨ pyEnds a "/" then a ++ b
  else a ++ "/" ++ b

/-- Filesystem model: files keyed by normalized absolute path.  Directories
are implicit (a directory exists when some file lives strictly below it);
the scripts only ever create directories via `os.makedirs(..., exist_ok=True)`,
which cannot fail in this model. -/
structure FileSystem where
  files : List (String × String)

/-- Content of the file designated by (possibly unnormalized) path `p`. -/
def FileSystem.read (fs : FileSystem) (p : String) : Option String :=
  (fs.files.find? (fun kv => kv.1 == normpath p)).map Prod.snd

/-- Write (create or overwrite) the file designated by `p`. -/
def FileSystem.write (fs : FileSystem) (p : String) (content : String) : FileSystem :=
  ⟨(normpath p, content) :: fs.files.filter (fun kv => ¬ kv.1 == normpath p)⟩

/-- A regular file exists at `p`. -/
def FileSystem.isFile (fs : FileSystem) (p : String) : Bool := (fs.read p).isSome

/-- A directory exists at `p` (some file lives strictly below it). -/
def FileSystem.isDir (fs : FileSystem) (p : String) : Bool :=
  fs.files.any (fun kv => ((normpath p).data ++ ['/']).isPrefixOf kv.1.data)

/-- `os.listdir(d)`: names of entries directly under directory `d`. -/
def FileSystem.listdir (fs : FileSystem) (d : String) : List String :=
  let pre := (normpath d).data ++ ['/']
  fs.files.filterMap (fun kv =>
    if pre.isPrefixOf kv.1.data then
      let rest := kv.1.data.drop pre.length
      if rest.contains '/' then none else some (String.mk rest)
    else none)

/-- HTTP responses produced by `OBSServerHandler`.  `json` is `_send_json`,
`raw` is the byte-for-byte file body written by the `/api/file/get` success
path, `fallback404` is the bare `self.send_error(404)` at the end of
`do_POST`, and `staticFile` is the `super().do_GET()` static-file fallback. -/
inductive HResp where
  | json (code : Nat) (body : Json)
  | raw (code : Nat) (body : String)
  | fallback404
  | staticFile (path : String)

/-- `_send_error(message, code)`: a JSON error body with the given status. -/
def errResp (code : Nat) (msg : String) : HResp := .json code (.obj [("error", .str msg)])

/-- In-memory credential triple `WSS_DETAILS`.  `PW` holds whatever JSON value
the config supplied for `server_password` (the script stores it unchecked). -/
structure WssTriple where
  IP : String
  PORT : Int
  PW : Json

/-- The initial `WSS_DETAILS` value. -/
def initialWss : WssTriple := { IP := "localhost", PORT := 4455, PW := .str "" }

/-- What `update_wss_details` finds at `source_path`: no file, a file that is
not valid JSON, or a parsed JSON object. -/
inductive ConfigSource where
  | missing
  | malformed
  | parsed (kvs : List (String × Json))

/-- Python `int(v)` on a JSON-derived value: ints pass through, bools are
0/1, numeric strings are parsed, everything else raises (`none`). -/
def pyInt : Json → Option Int
  | .int n => some n
  | .bool b => some (if b then 1 else 0)
  | .str s => pyIntOfString s
  | _ => none

/-- Translation of `update_wss_details` (`src/http_server.py`).  Returns the
`(success, message)` pair together with the resulting `WSS_DETAILS`.  Note the
source mutates `WSS_DETAILS["PW"]` before `int(...)` can raise, so a rejected
load with an unusable `server_port` still leaves the new password behind. -/
def update_wss_details (src : ConfigSource) (st : WssTriple) : (Bool × String) × WssTriple :=
  match src with
  | .missing => ((false, "File not found or not selected."), st)
  | .malformed => ((false, "Invalid JSON."), st)
  | .parsed d =>
    if ¬ (dictHas d "server_password" ∧ dictHas d "server_port") then
      ((false, "Missing keys"), st)
    else
      let st1 := { st with PW := dictGet d "server_password" (.str "") }
      match pyInt (dictGet d "server_port" (.int 4455)) with
      | some p => ((true, "Loaded successfully."), { st1 with PORT := p, IP := "localhost" })
      | none => ((false, "Error: invalid port value"), st1)

/-- `GET /api/file/list?folder=F` (`src/http_server.py`, `do_GET`). -/
def api_file_list (root : String) (fs : FileSystem) (folder : Option String) : HResp :=
  if pyFalsy folder then errResp 400 "Missing folder parameter"
  else
    let target_dir := joinPath root (folder.getD "")
    if ¬ pyStarts (normpath target_dir) root then errResp 403 "Access denied"
    else if ¬ (fs.isFile target_dir ∨ fs.isDir target_dir) then .json 200 (.arr [])
    else if fs.isFile target_dir then errResp 500 "Not a directory"
    else .json 200 (.arr (((fs.listdir target_dir).filter (fun n => pyEnds n ".json")).map .str))

/-- `GET /api/file/get?folder=F&filename=N` (`src/http_server.py`, `do_GET`). -/
def api_file_get (root : String) (fs : FileSystem) (folder filename : Option String) : HResp :=
  if pyFalsy folder ∨ pyFalsy filename then errResp 400 "Missing folder or filename parameter"
  else
    let target_dir := joinPath root (folder.getD "")
    let full_path := joinPath target_dir (filename.getD "")
    if ¬ pyStarts (normpath full_path) root then errResp 403 "Access denied"
    else
      match fs.read full_path with
      | none => errResp 404 "File not found"
      | some content => .raw 200 content

/-- `POST /api/file/save` (`src/http_server.py`, `do_POST`).  Returns the
response together with the updated filesystem. -/
def api_file_save (root : String) (fs : FileSystem) (folder filename : Option String)
    (data : Option Json) : HResp × FileSystem :=
  let dataMissing : Bool :=
    match data with
    | none => true
    | some .null => true
    | some _ => false
  if pyFalsy folder ∨ pyFalsy filename ∨ dataMissing then
    (errResp 400 "Missing folder, filename, or data", fs)
  else
    let target_dir := joinPath root (folder.getD "")
    let fname :=
      if pyEnds (filename.getD "") ".json" then filename.getD ""
      else filename.getD "" ++ ".json"
    let full_path := joinPath target_dir fname
    if ¬ pyStarts (normpath target_dir) root then
      (errResp 403 "Access denied: Path outside root", fs)
    else
      (.json 200 (.obj [("success", .bool true), ("path", .str full_path)]),
       fs.write full_path (jsonDump (data.getD .null) 0))

/-- An `OSCClient` object from `src/osc_io.py`: configuration fields plus
whether `__init__` managed to create a persistent UDP client (`udp_live`
models `self._udp_client is not None`). -/
structure OSCClient where
  ip : String
  port : Int
  browser_source : String
  osc_address : String
  event_name : String
  udp_live : Bool
deriving DecidableEq, Repr

/-- `OSCClient.matches`: an incoming address matches when the filter is empty
or is a leading piece of the address. -/
def OSCClient.matches (c : OSCClient) (address : String) : Bool :=
  if c.osc_address = "" then true
  else pyStarts address c.osc_address

/-- A UDP datagram handed to `SimpleUDPClient.send_message`. -/
structure Datagram where
  ip : String
  port : Int
  address : String
  args : List Json

/-- `OSCClient.send`: transmit when a socket exists; a raised transport error
(`sendOk = false`) is caught and logged, producing no datagram. -/
def OSCClient.send (c : OSCClient) (sendOk : Bool) (address : String) (args : List Json) :
    List Datagram :=
  if c.udp_live then
    if sendOk then [⟨c.ip, c.port, address, args⟩] else []
  else []

/-- The inbound dispatch loop of `OSCManager._on_osc_received`: scan the
client list in order, dispatch to the first client whose filter matches, and
`break`.  The returned list holds the clients passed to `_dispatch_to_obs`,
in dispatch order. -/
def on_osc_received : List OSCClient → String → List OSCClient
  | [], _ => []
  | c :: rest, address =>
    if c.matches address then [c]
    else on_osc_received rest address

/-- The dictionary form of a client placed on the `obs.osc_manager` bridge by
`OSCClient.to_dict`. -/
structure OscClientDict where
  client_ip : String
  client_port : Int
  browser_source_name : String
  osc_address : String
  event_name : String
deriving DecidableEq, Repr

/-- `OSCClient.to_dict`. -/
def OSCClient.to_dict (c : OSCClient) : OscClientDict :=
  ⟨c.ip, c.port, c.browser_source, c.osc_address, c.event_name⟩

/-- `OSCManager._bridge_send`: re-locate the live client carrying the given
`event_name` and send through it; a miss is silently ignored. -/
def bridge_send (liveClients : List OSCClient) (sendOk : Bool)
    (dict_event_name : Option String) (address : String) (args : List Json) : List Datagram :=
  match liveClients.find? (fun c => some c.event_name == dict_event_name) with
  | some target => target.send sendOk address args
  | none => []

/-- The `obs.osc_manager` attribute: the dictionary snapshot of the clients
plus the `_bridge_send` closure (its captured live client list). -/
structure OscBridge where
  clients : List OscClientDict
  liveClients : List OSCClient

/-- A `MidiDevice` object from `src/midi_io.py`.  `midi_in`/`midi_out` model
whether the corresponding rtmidi handle is open. -/
structure MidiDevice where
  device_name : String
  port_name : Option String
  midi_in : Bool
  midi_out : Bool
  browser_source_name : String
  event_name : String
deriving DecidableEq, Repr

/-- The `obs.midi_manager` attribute registered by `midi_io.script_load`:
just the `send_midi_api` closure (its captured device list). -/
structure MidiBridge where
  devices : List MidiDevice

/-- The attribute bag on the shared `obs` module object, as read by
`http_server.py` via `getattr(obs, ..., None)`. -/
structure Registry where
  osc_manager : Option OscBridge
  midi_manager : Option MidiBridge

/-- `POST /api/osc/send` (`src/http_server.py`, `do_POST`).  `sendOk` is the
outcome of the underlying UDP transmission attempt, should one happen.
Returns the response and the datagrams actually sent on the wire. -/
def api_osc_send (reg : Registry) (sendOk : Bool) (event_name address : Option String)
    (args : List Json) : HResp × List Datagram :=
  if pyFalsy address ∨ pyFalsy event_name then
    (errResp 400 "Missing OSC address or event_name", [])
  else
    match reg.osc_manager with
    | none => (errResp 503 "OSC Script not loaded or registered", [])
    | some mgr =>
      match mgr.clients.find? (fun c => c.event_name == event_name.getD "") with
      | none => (errResp 404 "Client with given event_name not found", [])
      | some target_client =>
        (.json 200 (.obj [("success", .bool true)]),
         bridge_send mgr.liveClients sendOk (some target_client.event_name)
           (address.getD "") args)

/-- The JSON body a `POST` handler may read fields from. -/
structure PostBody where
  folder : Option String
  filename : Option String
  data : Option Json
  event_name : Option String
  address : Option String
  args : List Json

/-- `OBSServerHandler.do_POST`: route on the URL path.  Only
`/api/file/save` and `/api/osc/send` exist; every other path reaches
`self.send_error(404)`. -/
def do_POST (root : String) (fs : FileSystem) (reg : Registry) (sendOk : Bool)
    (path : String) (body : PostBody) : HResp × FileSystem × List Datagram :=
  if path = "/api/file/save" then
    let (r, fs') := api_file_save root fs body.folder body.filename body.data
    (r, fs', [])
  else if path = "/api/osc/send" then
    let (r, out) := api_osc_send reg sendOk body.event_name body.address body.args
    (r, fs, out)
  else (.fallback404, fs, [])

/-- The `/api/obswss` response body: the `WSS_DETAILS` dictionary as JSON. -/
def wssJson (w : WssTriple) : Json :=
  .obj [("IP", .str w.IP), ("PORT", .int w.PORT), ("PW", w.PW)]

/-- `OBSServerHandler.do_GET`: route on the URL path; unknown paths fall back
to static file serving. -/
def do_GET (root : String) (fs : FileSystem) (wss : WssTriple) (path : String)
    (folder filename : Option String) : HResp :=
  if path = "/api/obswss" then .json 200 (wssJson wss)
  else if path = "/api/file/list" then api_file_list root fs folder
  else if path = "/api/file/get" then api_file_get root fs folder filename
  else .staticFile path

/-- One hex digit, or `none`. -/
def hexVal (c : Char) : Option Nat :=
  if '0' ≤ c ∧ c ≤ '9' then some (c.toNat - 48)
  else if 'a' ≤ c ∧ c ≤ 'f' then some (c.toNat - 97 + 10)
  else if 'A' ≤ c ∧ c ≤ 'F' then some (c.toNat - 65 + 10)
  else none

/-- Core of Python `bytearray.fromhex`: ASCII whitespace may separate byte
pairs; each byte is exactly two hex digits; anything else raises (`none`). -/
def fromhexAux : List Char → Option (List Nat)
  | [] => some []
  | c :: cs =>
    if isPySpace c then fromhexAux cs
    else
      match hexVal c, cs with
      | some hi, c2 :: cs2 =>
        (match hexVal c2 with
         | some lo => (fromhexAux cs2).map (fun r => (16 * hi + lo) :: r)
         | none => none)
      | _, _ => none

/-- Python `bytearray.fromhex(s)`. -/
def bytearray_fromhex (s : String) : Option (List Nat) := fromhexAux s.data

/-- Python `s.replace(" ", "")`. -/
def stripSpaces (s : String) : String := String.mk (s.data.filter (fun c => ¬ c = ' '))

/-- The shapes `send_midi_api` distinguishes for its `data` argument:
a JSON string, a JSON list of integers, or anything else. -/
inductive MidiData where
  | str (s : String)
  | list (l : List Int)
  | other
deriving DecidableEq, Repr

/-- `bytearray(list)` accepts exactly integer items in `0..255`; any other
item raises `ValueError`. -/
def isByteValue (x : Int) : Bool := 0 ≤ x ∧ x < 256

/-- Translation of `send_midi_api` (`src/midi_io.py`).  Returns the Python
result (`True` on an accepted transmit, `False` otherwise) and the raw byte
messages handed to `midi_out.send_message`. -/
def send_midi_api (devices : List MidiDevice) (event_name : String) (data : MidiData) :
    Bool × List (List Nat) :=
  match devices.find? (fun d => d.event_name == event_name) with
  | some target =>
    if target.midi_out then
      match data with
      | .str s =>
        (match bytearray_fromhex (stripSpaces s) with
         | some msg => (true, [msg])
         | none => (false, []))
      | .list l =>
        if l.all isByteValue then (true, [l.map Int.toNat])
        else (false, [])
      | .other => (false, [])
    else (false, [])
  | none => (false, [])

/-- The per-device saved script settings read by `midi_io.script_load`
(`obs_data_get_string` for the keys `midi_port_name_i`, `browser_source_name_i`
and `event_name_i`, and `obs_data_get_int` for `number_of_devices`). -/
structure MidiSettings where
  number_of_devices : Nat
  midi_port_name : Nat → String
  browser_source_name : Nat → String
  event_name : Nat → String

/-- The fresh `MidiDevice` built by `script_load` for slot `i` when its saved
port name is found; no handles are opened at this point. -/
def mkDevice (st : MidiSettings) (i : Nat) : MidiDevice :=
  { device_name := "MIDI Device " ++ natToStr (i + 1)
    port_name := some (st.midi_port_name i)
    midi_in := false
    midi_out := false
    browser_source_name := st.browser_source_name i
    event_name :=
      if st.event_name i = "" then "midiDevice_" ++ natToStr i else st.event_name i }

/-- Python exceptions that escape the modelled code. -/
inductive PyError where
  | indexError
deriving DecidableEq, Repr

/-- One iteration of the device-loading loop in `midi_io.script_load`.  A
found port appends a device and then executes the debug
`print(midi_devices[i].port_name)`, which raises `IndexError` unless the
accumulated list is long enough; a missing port only overwrites the saved
setting with the sentinel `"---"` (recorded in the second component). -/
def loadStep (ports : List String) (st : MidiSettings) (i : Nat)
    (devs : List MidiDevice) (cleared : List Nat) :
    Except PyError (List MidiDevice × List Nat) :=
  if st.midi_port_name i ∈ ports then
    let devs' := devs ++ [mkDevice st i]
    if i < devs'.length then .ok (devs', cleared) else .error .indexError
  else .ok (devs, cleared ++ [i])

/-- The device-loading loop of `midi_io.script_load`, iterating slot index
`i` with `fuel` slots remaining. -/
def loadFrom (ports : List String) (st : MidiSettings) :
    Nat → Nat → List MidiDevice → List Nat → Except PyError (List MidiDevice × List Nat)
  | _, 0, devs, cleared => .ok (devs, cleared)
  | i, fuel + 1, devs, cleared =>
    match loadStep ports st i devs cleared with
    | .error e => .error e
    | .ok (devs', cleared') => loadFrom ports st (i + 1) fuel devs' cleared'

/-- The whole device-loading phase of `midi_io.script_load`, starting from an
empty device table (a fresh script load). -/
def script_load_devices (ports : List String) (st : MidiSettings) :
    Except PyError (List MidiDevice × List Nat) :=
  loadFrom ports st 0 st.number_of_devices [] []

/-- The event forwarded to a browser source by `midi_input_callback`. -/
structure MidiEvent where
  eventName : String
  status : Nat
  note : Nat
  velocity : Nat
  data : List Nat
deriving DecidableEq, Repr

/-- Translation of `midi_input_callback` (`src/midi_io.py`).  `midi_data` is
`message[0]`, the raw byte list; `sourceFound` models whether
`obs_get_source_by_name` returns a source, and `dispatchOk` whether the
browser-source injection inside the `try` block succeeds.  The result is the
event delivered to the browser source, `none` when nothing is delivered, or
the Python exception that escapes the callback. -/
def midi_input_callback (device : MidiDevice) (midi_data : List Nat)
    (sourceFound dispatchOk : Bool) : Except PyError (Option MidiEvent) :=
  match midi_data with
  | [] => .error .indexError
  | s :: rest =>
    let note := rest.getD 0 0
    let velocity := rest.getD 1 0
    if device.browser_source_name ≠ "" ∧ sourceFound then
      if dispatchOk then .ok (some ⟨device.event_name, s, note, velocity, s :: rest⟩)
      else .ok none
    else .ok none

/-- Slot `i` holds a saved port name that is currently enumerated. -/
def foundIdx (ports : List String) (st : MidiSettings) (i : Nat) : Bool :=
  st.midi_port_name i ∈ ports

/-- The devices that the loading loop builds for slots `i, i+1, ...` over
`fuel` slots: exactly the slots whose port is found, in slot order. -/
def foundDevs (ports : List String) (st : MidiSettings) : Nat → Nat → List MidiDevice
  | _, 0 => []
  | i, fuel + 1 =>
    (if foundIdx ports st i then [mkDevice st i] else []) ++ foundDevs ports st (i + 1) fuel

/-- The slots whose saved port name is not found (their settings entry is
overwritten with `"---"`), in slot order. -/
def missedIdxs (ports : List String) (st : MidiSettings) : Nat → Nat → List Nat
  | _, 0 => []
  | i, fuel + 1 =>
    (if foundIdx ports st i then [] else [i]) ++ missedIdxs ports st (i + 1) fuel

/-! ## Helper lemmas -/

theorem FileSystem.read_write (fs : FileSystem) (p : String) (content : String) :
    (fs.write p content).read p = some content := by
  simp [FileSystem.read, FileSystem.write, List.find?]

theorem pyFalsy_some_false {s : String} (h : s ≠ "") : pyFalsy (some s) = false := by
  simp [pyFalsy, h]

/-! ## Claims -/

/-- C2: for every OSC client table and inbound address, the inbound dispatch
loop `_on_osc_received` dispatches to at most one client; when no filter
matches it dispatches to none (and returns normally); when the table splits
as `pre ++ c :: post` with no client of `pre` matching and `c` matching, it
dispatches exactly to `c`, the first declared match; an empty filter matches
every address. -/
theorem c2_osc_first_match_dispatch (clients : List OSCClient) (address : String) :
    (on_osc_received clients address).length ≤ 1 ∧
    ((∀ c ∈ clients, c.matches address = false) → on_osc_received clients address = []) ∧
    (∀ pre c post, clients = pre ++ c :: post → c.matches address = true →
      (∀ d ∈ pre, d.matches address = false) → on_osc_received clients address = [c]) ∧
    (∀ c : OSCClient, c.osc_address = "" → c.matches address = true) := by
  refine ⟨?_, ?_, ?_, ?_⟩
  · induction clients with
    | nil => simp [on_osc_received]
    | cons c rest ih =>
      by_cases h : c.matches address <;> simp [on_osc_received, h, ih]
  · induction clients with
    | nil => intro _; rfl
    | cons c rest ih =>
      intro hall
      have hc := hall c (by simp)
      simp only [on_osc_received, hc, Bool.false_eq_true, if_false]
      exact ih (fun d hd => hall d (by simp [hd]))
  · intro pre c post heq
    subst heq
    induction pre with
    | nil =>
      intro hc _
      simp [on_osc_received, hc]
    | cons d ds ih =>
      intro hc hpre
      have hd := hpre d (by simp)
      simp only [List.cons_append, on_osc_received, hd, Bool.false_eq_true, if_false]
      exact ih hc (fun d' hd' => hpre d' (by simp [hd']))
  · intro c hc
    simp [OSCClient.matches, hc]

/-- Witness for C2: with overlapping filters (the second client's empty
filter matches everything), only the first declared match is dispatched. -/
theorem c2_osc_first_match_dispatch_witness :
    on_osc_received
      [⟨"127.0.0.1", 9000, "b0", "/fader", "osc_event_0", true⟩,
       ⟨"127.0.0.1", 9001, "b1", "", "osc_event_1", true⟩] "/fader1" =
      [⟨"127.0.0.1", 9000, "b0", "/fader", "osc_event_0", true⟩] :=
  (c2_osc_first_match_dispatch _ "/fader1").2.2.1 []
    ⟨"127.0.0.1", 9000, "b0", "/fader", "osc_event_0", true⟩
    [⟨"127.0.0.1", 9001, "b1", "", "osc_event_1", true⟩] rfl (by decide) (by simp)

/-- C3: for a `POST /api/osc/send` body carrying a nonempty `event_name` and
`address`, the response is 503 when no OSC capability is registered, 404 when
it is registered but no client dictionary carries the `event_name`, and
`200 {"success": true}` when one does. -/
theorem c3_osc_send_status_codes (reg : Registry) (sendOk : Bool) (en addr : String)
    (args : List Json) (hen : en ≠ "") (haddr : addr ≠ "") :
    (api_osc_send reg sendOk (some en) (some addr) args).1 =
      match reg.osc_manager with
      | none => errResp 503 "OSC Script not loaded or registered"
      | some mgr =>
        match mgr.clients.find? (fun c => c.event_name == en) with
        | none => errResp 404 "Client with given event_name not found"
        | some _ => .json 200 (.obj [("success", .bool true)]) := by
  simp only [api_osc_send, pyFalsy_some_false hen, pyFalsy_some_false haddr,
    Bool.false_eq_true, false_or, if_false, Option.getD_some]
  cases reg.osc_manager with
  | none => rfl
  | some mgr =>
    cases h : mgr.clients.find? (fun c => c.event_name == en) <;> simp [h]

/-- Witness for C3: the three status codes at concrete registry states. -/
theorem c3_osc_send_status_codes_witness :
    ((api_osc_send ⟨none, none⟩ true (some "osc_event_0") (some "/fader1") [.int 1]).1 =
      errResp 503 "OSC Script not loaded or registered") ∧
    ((api_osc_send ⟨some ⟨[⟨"1.2.3.4", 9000, "b", "", "osc_event_0"⟩], []⟩, none⟩ true
        (some "nope") (some "/fader1") []).1 =
      errResp 404 "Client with given event_name not found") ∧
    ((api_osc_send ⟨some ⟨[⟨"1.2.3.4", 9000, "b", "", "osc_event_0"⟩], []⟩, none⟩ true
        (some "osc_event_0") (some "/fader1") [.int 1]).1 =
      .json 200 (.obj [("success", .bool true)])) :=
  ⟨c3_osc_send_status_codes ⟨none, none⟩ true "osc_event_0" "/fader1" [.int 1]
      (by decide) (by decide),
   c3_osc_send_status_codes ⟨some ⟨[⟨"1.2.3.4", 9000, "b", "", "osc_event_0"⟩], []⟩, none⟩
      true "nope" "/fader1" [] (by decide) (by decide),
   c3_osc_send_status_codes ⟨some ⟨[⟨"1.2.3.4", 9000, "b", "", "osc_event_0"⟩], []⟩, none⟩
      true "osc_event_0" "/fader1" [.int 1] (by decide) (by decide)⟩

/-- C10: whenever the OSC capability is registered and the `event_name` names
a client dictionary on the bridge, `/api/osc/send` answers
`200 {"success": true}` for every state of the live client list (which may
not even contain the name), every socket state, and every transmit outcome
`sendOk` — the response never depends on whether bytes went out. -/
theorem c10_osc_send_success_ignores_transport (clients : List OscClientDict)
    (liveClients : List OSCClient) (midi : Option MidiBridge) (sendOk : Bool)
    (en addr : String) (args : List Json) (c : OscClientDict)
    (hen : en ≠ "") (haddr : addr ≠ "")
    (hfind : clients.find? (fun d => d.event_name == en) = some c) :
    (api_osc_send ⟨some ⟨clients, liveClients⟩, midi⟩ sendOk (some en) (some addr) args).1 =
      .json 200 (.obj [("success", .bool true)]) := by
  simp [api_osc_send, pyFalsy_some_false hen, pyFalsy_some_false haddr, hfind]

/-- Witness for C10: a concrete send with an empty live client list and a
failing transport still answers 200 while zero datagrams leave the process. -/
theorem c10_osc_send_success_ignores_transport_witness :
    ((api_osc_send ⟨some ⟨[⟨"1.2.3.4", 9000, "b", "", "osc_event_0"⟩], []⟩, none⟩ false
        (some "osc_event_0") (some "/fader1") [.int 1]).1 =
      .json 200 (.obj [("success", .bool true)])) ∧
    ((api_osc_send ⟨some ⟨[⟨"1.2.3.4", 9000, "b", "", "osc_event_0"⟩], []⟩, none⟩ false
        (some "osc_event_0") (some "/fader1") [.int 1]).2 = []) :=
  ⟨c10_osc_send_success_ignores_transport [⟨"1.2.3.4", 9000, "b", "", "osc_event_0"⟩] [] none
      false "osc_event_0" "/fader1" [.int 1] ⟨"1.2.3.4", 9000, "b", "", "osc_event_0"⟩
      (by decide) (by decide) rfl,
   rfl⟩

/-- C4 (code bug): `do_POST` exposes no MIDI send route at all.  Every `POST`
path other than `/api/file/save` and `/api/osc/send` reaches the bare
`send_error(404)` fallback, the outcome never depends on the registered
`obs.midi_manager` capability, and in particular a `POST /api/midi/send`
carrying a known `event_name` while the MIDI capability is registered is
answered with the plain 404 fallback instead of the 503/404/200 contract. -/
theorem c4_no_midi_send_route :
    (∀ (root : String) (fs : FileSystem) (osc : Option OscBridge)
        (midi midi' : Option MidiBridge) (sendOk : Bool) (path : String) (body : PostBody),
        path ≠ "/api/file/save" → path ≠ "/api/osc/send" →
        do_POST root fs ⟨osc, midi⟩ sendOk path body = (.fallback404, fs, []) ∧
        do_POST root fs ⟨osc, midi⟩ sendOk path body =
          do_POST root fs ⟨osc, midi'⟩ sendOk path body) ∧
    do_POST "/r/app" ⟨[]⟩
        ⟨none, some ⟨[⟨"MIDI Device 1", some "P", true, true, "b", "midiDevice_0"⟩]⟩⟩
        true "/api/midi/send"
        ⟨none, none, some (.str "90 3C 40"), some "midiDevice_0", none, []⟩ =
      (.fallback404, ⟨[]⟩, []) := by
  constructor
  · intro root fs osc midi midi' sendOk path body h1 h2
    constructor <;> simp [do_POST, h1, h2]
  · rfl

/-- Witness for C4: the fallback at the canonical missing route. -/
theorem c4_no_midi_send_route_witness :
    do_POST "/r" ⟨[]⟩ ⟨none, none⟩ true "/api/midi/send" ⟨none, none, none, none, none, []⟩ =
      (.fallback404, ⟨[]⟩, []) :=
  (c4_no_midi_send_route.1 "/r" ⟨[]⟩ none none none true "/api/midi/send"
    ⟨none, none, none, none, none, []⟩ (by decide) (by decide)).1

/-- C1 counterexample: a `POST /api/file/save` whose filename component
escapes the root.  The resolved path normalizes to `/etc/pw.json`, which is
not a descendant of the root `/r/app`, yet the request is not rejected: the
handler answers success and performs a filesystem write at the escaped path,
because the security check only inspects `root/folder`. -/
theorem c1_scoped_path_counterexample :
    pyStarts (normpath (joinPath (joinPath "/r/app" "cfg") "../../../etc/pw.json")) "/r/app"
      = false ∧
    (api_file_save "/r/app" ⟨[]⟩ (some "cfg") (some "../../../etc/pw") (some (.int 1))).1 =
      .json 200 (.obj [("success", .bool true), ("path", .str "/r/app/cfg/../../../etc/pw.json")]) ∧
    (api_file_save "/r/app" ⟨[]⟩ (some "cfg") (some "../../../etc/pw")
        (some (.int 1))).2.read "/etc/pw.json" = some "1" :=
  ⟨by decide, rfl, rfl⟩

/-- C1 amended: the rejection the code actually implements.  For
`/api/file/list` and `/api/file/get` the request is answered 403 — for every
filesystem state, hence before any filesystem call — whenever the normalized
joined path (`root/folder` for list, `root/folder/filename` for get) does not
have the configured root as a textual string piece at position zero; for
`/api/file/save` the same test is applied to `root/folder` only, so the
filename component is not covered (see the counterexample), and on rejection
the filesystem is unchanged.  The test is plain string matching on
`normpath`, which resolves no symlinks. -/
theorem c1_scoped_path_rejection (root : String) (fs : FileSystem) (f n : String) (data : Json)
    (hf : f ≠ "") (hn : n ≠ "") (hd : data ≠ .null) :
    (pyStarts (normpath (joinPath root f)) root = false →
      api_file_list root fs (some f) = errResp 403 "Access denied") ∧
    (pyStarts (normpath (joinPath (joinPath root f) n)) root = false →
      api_file_get root fs (some f) (some n) = errResp 403 "Access denied") ∧
    (pyStarts (normpath (joinPath root f)) root = false →
      api_file_save root fs (some f) (some n) (some data) =
        (errResp 403 "Access denied: Path outside root", fs)) := by
  refine ⟨?_, ?_, ?_⟩
  · intro h
    simp [api_file_list, pyFalsy_some_false hf, h]
  · intro h
    simp [api_file_get, pyFalsy_some_false hf, pyFalsy_some_false hn, h]
  · intro h
    cases data <;>
      simp_all [api_file_save, pyFalsy_some_false hf, pyFalsy_some_false hn]

/-- Witness for C1 amended: concrete `..`-escapes on each route are answered
403 with no dependence on the (empty) filesystem. -/
theorem c1_scoped_path_rejection_witness :
    api_file_list "/r/app" ⟨[]⟩ (some "..") = errResp 403 "Access denied" ∧
    api_file_get "/r/app" ⟨[]⟩ (some "..") (some "x") = errResp 403 "Access denied" ∧
    api_file_save "/r/app" ⟨[]⟩ (some "..") (some "x") (some (.int 0)) =
      (errResp 403 "Access denied: Path outside root", ⟨[]⟩) :=
  ⟨(c1_scoped_path_rejection "/r/app" ⟨[]⟩ ".." "x" (.int 0) (by decide) (by decide)
      (by simp)).1 (by decide),
   (c1_scoped_path_rejection "/r/app" ⟨[]⟩ ".." "x" (.int 0) (by decide) (by decide)
      (by simp)).2.1 (by decide),
   (c1_scoped_path_rejection "/r/app" ⟨[]⟩ ".." "x" (.int 0) (by decide) (by decide)
      (by simp)).2.2 (by decide)⟩

/-- C8: a `POST /api/file/save` whose folder and (suffixed) filename pass the
handler's root checks succeeds, answering the resolved path and writing the
body as indent-2 JSON; a subsequent `GET /api/file/get` for the same folder
and the saved filename returns exactly the bytes that were written. -/
theorem c8_save_get_roundtrip (fs : FileSystem) (root f n : String) (data : Json)
    (hf : f ≠ "") (hn : n ≠ "") (hd : data ≠ .null)
    (hsave : pyStarts (normpath (joinPath root f)) root = true)
    (hget : pyStarts (normpath (joinPath (joinPath root f)
        (if pyEnds n ".json" then n else n ++ ".json"))) root = true) :
    (api_file_save root fs (some f) (some n) (some data)).1 =
      .json 200 (.obj [("success", .bool true),
        ("path", .str (joinPath (joinPath root f)
          (if pyEnds n ".json" then n else n ++ ".json")))]) ∧
    api_file_get root (api_file_save root fs (some f) (some n) (some data)).2
        (some f) (some (if pyEnds n ".json" then n else n ++ ".json")) =
      .raw 200 (jsonDump data 0) := by
  have hfn : (if pyEnds n ".json" then n else n ++ ".json") ≠ "" := by
    by_cases hj : pyEnds n ".json"
    · simpa [hj] using hn
    · rw [if_neg hj]
      intro hcontra
      have hdata : (n ++ ".json").data = ("" : String).data := by rw [hcontra]
      simp [String.data_append] at hdata
  have hsave_eq : api_file_save root fs (some f) (some n) (some data) =
      (.json 200 (.obj [("success", .bool true),
          ("path", .str (joinPath (joinPath root f)
            (if pyEnds n ".json" then n else n ++ ".json")))]),
       fs.write (joinPath (joinPath root f)
          (if pyEnds n ".json" then n else n ++ ".json")) (jsonDump data 0)) := by
    cases data <;>
      simp_all [api_file_save, pyFalsy_some_false hf, pyFalsy_some_false hn]
  refine ⟨by rw [hsave_eq], ?_⟩
  rw [hsave_eq]
  simp [api_file_get, pyFalsy_some_false hf, pyFalsy_some_false hfn, hget,
    FileSystem.read_write]

/-- Witness for C8 at a concrete save/get pair inside the root. -/
theorem c8_save_get_roundtrip_witness :
    (api_file_save "/r/app" ⟨[]⟩ (some "profiles") (some "prof")
        (some (.obj [("a", .int 1)]))).1 =
      .json 200 (.obj [("success", .bool true), ("path", .str "/r/app/profiles/prof.json")]) ∧
    api_file_get "/r/app"
        (api_file_save "/r/app" ⟨[]⟩ (some "profiles") (some "prof")
          (some (.obj [("a", .int 1)]))).2 (some "profiles") (some "prof.json") =
      .raw 200 (jsonDump (.obj [("a", .int 1)]) 0) :=
  c8_save_get_roundtrip ⟨[]⟩ "/r/app" "profiles" "prof" (.obj [("a", .int 1)])
    (by decide) (by decide) (by simp) (by decide) (by decide)

/-- C5 counterexample: a config file holding both required keys but an
`server_port` value that `int(...)` rejects.  The load is rejected, yet the
in-memory triple is *not* retained unchanged: the `PW` field was already
overwritten before the port conversion raised. -/
theorem c5_wss_counterexample :
    ((update_wss_details
        (.parsed [("server_password", .str "newpw"), ("server_port", .str "abc")])
        ⟨"localhost", 4455, .str "oldpw"⟩).1.1 = false) ∧
    ((update_wss_details
        (.parsed [("server_password", .str "newpw"), ("server_port", .str "abc")])
        ⟨"localhost", 4455, .str "oldpw"⟩).2 ≠ ⟨"localhost", 4455, .str "oldpw"⟩) ∧
    ((update_wss_details
        (.parsed [("server_password", .str "newpw"), ("server_port", .str "abc")])
        ⟨"localhost", 4455, .str "oldpw"⟩).2.PW = .str "newpw") := by
  refine ⟨rfl, ?_, rfl⟩
  show WssTriple.mk "localhost" 4455 (.str "newpw") ≠ ⟨"localhost", 4455, .str "oldpw"⟩
  intro h
  have h2 : Json.str "newpw" = Json.str "oldpw" := congrArg WssTriple.PW h
  rw [Json.str.injEq] at h2
  exact (by decide : ("newpw" : String) ≠ "oldpw") h2

/-- C5 amended: a missing file, malformed JSON or a missing required key
rejects the load with the triple retained unchanged; when both keys are
present and the port value converts, the load succeeds and replaces the
triple wholesale with the host fixed to `localhost`; when both keys are
present but the port value is unusable, the load is rejected with `IP` and
`PORT` retained but `PW` already overwritten with the new password value. -/
theorem c5_wss_load (st : WssTriple) :
    update_wss_details .missing st = ((false, "File not found or not selected."), st) ∧
    update_wss_details .malformed st = ((false, "Invalid JSON."), st) ∧
    (∀ d, ¬ (dictHas d "server_password" = true ∧ dictHas d "server_port" = true) →
      update_wss_details (.parsed d) st = ((false, "Missing keys"), st)) ∧
    (∀ d p, dictHas d "server_password" = true → dictHas d "server_port" = true →
      pyInt (dictGet d "server_port" (.int 4455)) = some p →
      update_wss_details (.parsed d) st =
        ((true, "Loaded successfully."),
         ⟨"localhost", p, dictGet d "server_password" (.str "")⟩)) ∧
    (∀ d, dictHas d "server_password" = true → dictHas d "server_port" = true →
      pyInt (dictGet d "server_port" (.int 4455)) = none →
      update_wss_details (.parsed d) st =
        ((false, "Error: invalid port value"),
         ⟨st.IP, st.PORT, dictGet d "server_password" (.str "")⟩)) := by
  obtain ⟨ip, port, pw⟩ := st
  refine ⟨rfl, rfl, ?_, ?_, ?_⟩
  · intro d h
    simp [update_wss_details, h]
  · intro d p h1 h2 h3
    simp [update_wss_details, h1, h2, h3]
  · intro d h1 h2 h3
    simp [update_wss_details, h1, h2, h3]

/-- Witness for C5 amended: a successful load at a concrete config replaces
the triple wholesale with the loopback host name. -/
theorem c5_wss_load_witness :
    update_wss_details
        (.parsed [("server_password", .str "pw2"), ("server_port", .int 4460)])
        ⟨"localhost", 4455, .str "oldpw"⟩ =
      ((true, "Loaded successfully."), ⟨"localhost", 4460, .str "pw2"⟩) :=
  (c5_wss_load ⟨"localhost", 4455, .str "oldpw"⟩).2.2.2.1
    [("server_password", .str "pw2"), ("server_port", .int 4460)] 4460 rfl rfl rfl

/-- C7: outbound MIDI send on a device found by `event_name` and owning a
live output handle: a hex string (pairs of hex digits, whitespace separators,
spaces stripped first) or an all-in-range byte list is transmitted verbatim
as one raw message with result `True`; a failing hex parse, an out-of-range
list, or any other shape yields `False` with nothing transmitted; the hex
string "90 3C 40" denotes exactly the bytes `[0x90, 0x3C, 0x40]`. -/
theorem c7_send_midi_api (devices : List MidiDevice) (en : String) (target : MidiDevice)
    (hfind : devices.find? (fun d => d.event_name == en) = some target)
    (hout : target.midi_out = true) :
    (∀ s bs, bytearray_fromhex (stripSpaces s) = some bs →
      send_midi_api devices en (.str s) = (true, [bs])) ∧
    (∀ s, bytearray_fromhex (stripSpaces s) = none →
      send_midi_api devices en (.str s) = (false, [])) ∧
    (∀ l, l.all isByteValue = true →
      send_midi_api devices en (.list l) = (true, [l.map Int.toNat])) ∧
    (∀ l, l.all isByteValue = false →
      send_midi_api devices en (.list l) = (false, [])) ∧
    send_midi_api devices en .other = (false, []) ∧
    bytearray_fromhex (stripSpaces "90 3C 40") = some [144, 60, 64] := by
  refine ⟨?_, ?_, ?_, ?_, ?_, by decide⟩
  · intro s bs h
    simp [send_midi_api, hfind, hout, h]
  · intro s h
    simp [send_midi_api, hfind, hout, h]
  · intro l h
    simp [send_midi_api, hfind, hout, h]
  · intro l h
    simp [send_midi_api, hfind, hout, h]
  · simp [send_midi_api, hfind, hout]

/-- Witness for C7: the spec's example transmit on a bound device. -/
theorem c7_send_midi_api_witness :
    send_midi_api [⟨"MIDI Device 1", some "P", true, true, "b", "midiDevice_0"⟩]
      "midiDevice_0" (.str "90 3C 40") = (true, [[144, 60, 64]]) :=
  (c7_send_midi_api [⟨"MIDI Device 1", some "P", true, true, "b", "midiDevice_0"⟩]
    "midiDevice_0" ⟨"MIDI Device 1", some "P", true, true, "b", "midiDevice_0"⟩
    rfl rfl).1 "90 3C 40" [144, 60, 64] (by decide)

/-- C9 counterexample: a zero-byte MIDI message makes the callback evaluate
`message[0][0]`, raising `IndexError` past the callback boundary (the `try`
block only guards the browser-source dispatch further down). -/
theorem c9_midi_callback_counterexample :
    midi_input_callback ⟨"MIDI Device 1", some "P", true, true, "b", "midiDevice_0"⟩ [] true true =
      .error .indexError := rfl

/-- C9 amended: for every MIDI message of at least one byte the callback
returns without raising; any event it delivers decodes missing `note` and
`velocity` bytes as zero; and a dispatch failure inside the `try` block is
dropped (the callback still returns normally, delivering nothing). -/
theorem c9_midi_callback_no_raise (device : MidiDevice) (s : Nat) (rest : List Nat)
    (sourceFound dispatchOk : Bool) :
    (∃ r, midi_input_callback device (s :: rest) sourceFound dispatchOk = .ok r) ∧
    (∀ e, midi_input_callback device (s :: rest) sourceFound dispatchOk = .ok (some e) →
      e = ⟨device.event_name, s, rest.getD 0 0, rest.getD 1 0, s :: rest⟩) ∧
    midi_input_callback device (s :: rest) sourceFound false = .ok none := by
  refine ⟨?_, ?_, ?_⟩
  · simp only [midi_input_callback]
    split_ifs <;> exact ⟨_, rfl⟩
  · intro e h
    simp only [midi_input_callback] at h
    split_ifs at h <;> simp_all
  · simp [midi_input_callback]

/-- Witness for C9 amended: a one-byte message whose dispatch fails is
dropped without an exception. -/
theorem c9_midi_callback_no_raise_witness :
    midi_input_callback ⟨"MIDI Device 1", some "P", true, true, "b", "midiDevice_0"⟩
      [144] true false = .ok none :=
  (c9_midi_callback_no_raise ⟨"MIDI Device 1", some "P", true, true, "b", "midiDevice_0"⟩
    144 [] true false).2.2

/-! ### Lemmas about the `midi_io.script_load` device loop -/

theorem foundIdx_false_not_mem {ports : List String} {st : MidiSettings} {i : Nat}
    (h : foundIdx ports st i = false) : ¬ st.midi_port_name i ∈ ports := by
  simpa [foundIdx] using h

theorem foundIdx_true_mem {ports : List String} {st : MidiSettings} {i : Nat}
    (h : foundIdx ports st i = true) : st.midi_port_name i ∈ ports := by
  simpa [foundIdx] using h

theorem loadFrom_all_missed (ports : List String) (st : MidiSettings) (fuel : Nat) :
    ∀ i devs cleared, (∀ k, k < fuel → foundIdx ports st (i + k) = false) →
    loadFrom ports st i fuel devs cleared =
      .ok (devs, cleared ++ missedIdxs ports st i fuel) := by
  induction fuel with
  | zero =>
    intro i devs cleared _
    simp [loadFrom, missedIdxs]
  | succ fuel ih =>
    intro i devs cleared h
    have h0 : foundIdx ports st i = false := by simpa using h 0 (Nat.succ_pos _)
    have hrest : ∀ k, k < fuel → foundIdx ports st (i + 1 + k) = false := by
      intro k hk
      have harith : i + 1 + k = i + (k + 1) := by omega
      rw [harith]
      exact h (k + 1) (by omega)
    simp only [loadFrom, loadStep, foundIdx_false_not_mem h0, if_false, missedIdxs]
    rw [ih (i + 1) devs (cleared ++ [i]) hrest]
    simp [h0, List.append_assoc]

theorem loadFrom_error_of_deficit (ports : List String) (st : MidiSettings) (fuel : Nat) :
    ∀ i devs cleared, devs.length < i →
    (∃ k, k < fuel ∧ foundIdx ports st (i + k) = true) →
    loadFrom ports st i fuel devs cleared = .error .indexError := by
  induction fuel with
  | zero =>
    intro i devs cleared _ ⟨k, hk, _⟩
    omega
  | succ fuel ih =>
    intro i devs cleared hlen ⟨k, hk, hfound⟩
    by_cases hmem : st.midi_port_name i ∈ ports
    · have hcheck : ¬ i < devs.length + 1 := by omega
      simp [loadFrom, loadStep, hmem, hcheck]
    · have hk0 : k ≠ 0 := by
        intro h0
        subst h0
        exact hmem (foundIdx_true_mem (by simpa using hfound))
      obtain ⟨k', rfl⟩ : ∃ k', k = k' + 1 := ⟨k - 1, by omega⟩
      simp only [loadFrom, loadStep, hmem, if_false]
      exact ih (i + 1) devs (cleared ++ [i]) (by omega)
        ⟨k', by omega, by
          have harith : i + 1 + k' = i + (k' + 1) := by omega
          rw [harith]
          exact hfound⟩

theorem loadFrom_error_of_gap (ports : List String) (st : MidiSettings) (fuel : Nat) :
    ∀ i devs cleared, devs.length ≤ i →
    (∃ k k', k < k' ∧ k' < fuel ∧ foundIdx ports st (i + k) = false ∧
      foundIdx ports st (i + k') = true) →
    loadFrom ports st i fuel devs cleared = .error .indexError := by
  induction fuel with
  | zero =>
    intro i devs cleared _ ⟨k, k', _, hk', _, _⟩
    omega
  | succ fuel ih =>
    intro i devs cleared hlen ⟨k, k', hkk, hk', hmiss, hfound⟩
    by_cases hk0 : k = 0
    · subst hk0
      have h0 : foundIdx ports st i = false := by simpa using hmiss
      simp only [loadFrom, loadStep, foundIdx_false_not_mem h0, if_false]
      exact loadFrom_error_of_deficit ports st fuel (i + 1) devs (cleared ++ [i])
        (by omega)
        ⟨k' - 1, by omega, by
          have harith : i + 1 + (k' - 1) = i + k' := by omega
          rw [harith]
          exact hfound⟩
    · obtain ⟨kk, rfl⟩ : ∃ kk, k = kk + 1 := ⟨k - 1, by omega⟩
      obtain ⟨kk', rfl⟩ : ∃ kk', k' = kk' + 1 := ⟨k' - 1, by omega⟩
      have hshift : foundIdx ports st (i + 1 + kk) = false ∧
          foundIdx ports st (i + 1 + kk') = true := by
        constructor
        · have harith : i + 1 + kk = i + (kk + 1) := by omega
          rw [harith]; exact hmiss
        · have harith : i + 1 + kk' = i + (kk' + 1) := by omega
          rw [harith]; exact hfound
      by_cases hmem : st.midi_port_name i ∈ ports
      · by_cases hcheck : i < devs.length + 1
        · have hstep : loadFrom ports st i (fuel + 1) devs cleared =
              loadFrom ports st (i + 1) fuel (devs ++ [mkDevice st i]) cleared := by
            simp [loadFrom, loadStep, hmem, hcheck]
          rw [hstep]
          exact ih (i + 1) (devs ++ [mkDevice st i]) cleared
            (by simp only [List.length_append, List.length_cons, List.length_nil]; omega)
            ⟨kk, kk', by omega, by omega, hshift.1, hshift.2⟩
        · simp [loadFrom, loadStep, hmem, hcheck]
      · simp only [loadFrom, loadStep, hmem, if_false]
        exact ih (i + 1) devs (cleared ++ [i]) (by omega)
          ⟨kk, kk', by omega, by omega, hshift.1, hshift.2⟩

theorem loadFrom_ok_shape (ports : List String) (st : MidiSettings) (fuel : Nat) :
    ∀ i devs cleared devs' cleared',
    loadFrom ports st i fuel devs cleared = .ok (devs', cleared') →
    devs' = devs ++ foundDevs ports st i fuel ∧
    cleared' = cleared ++ missedIdxs ports st i fuel := by
  induction fuel with
  | zero =>
    intro i devs cleared devs' cleared' h
    simp only [loadFrom, Except.ok.injEq, Prod.mk.injEq] at h
    simp [foundDevs, missedIdxs, ← h.1, ← h.2]
  | succ fuel ih =>
    intro i devs cleared devs' cleared' h
    by_cases hmem : st.midi_port_name i ∈ ports
    · have hfi : foundIdx ports st i = true := by simp [foundIdx, hmem]
      by_cases hcheck : i < devs.length + 1
      · have hstep : loadFrom ports st i (fuel + 1) devs cleared =
            loadFrom ports st (i + 1) fuel (devs ++ [mkDevice st i]) cleared := by
          simp [loadFrom, loadStep, hmem, hcheck]
        rw [hstep] at h
        obtain ⟨h1, h2⟩ := ih (i + 1) (devs ++ [mkDevice st i]) cleared devs' cleared' h
        constructor
        · rw [h1]
          simp [foundDevs, hfi, List.append_assoc]
        · rw [h2]
          simp [missedIdxs, hfi]
      · simp [loadFrom, loadStep, hmem, hcheck] at h
    · have hfi : foundIdx ports st i = false := by simp [foundIdx, hmem]
      simp only [loadFrom, loadStep, hmem, if_false] at h
      obtain ⟨h1, h2⟩ := ih (i + 1) devs (cleared ++ [i]) devs' cleared' h
      constructor
      · rw [h1]
        simp [foundDevs, hfi]
      · rw [h2]
        simp [missedIdxs, hfi, List.append_assoc]

theorem loadFrom_ok_of_closed (ports : List String) (st : MidiSettings) (fuel : Nat) :
    ∀ i devs cleared, devs.length = i →
    (∀ k k', k ≤ k' → k' < fuel → foundIdx ports st (i + k') = true →
      foundIdx ports st (i + k) = true) →
    ∃ r, loadFrom ports st i fuel devs cleared = .ok r := by
  induction fuel with
  | zero =>
    intro i devs cleared _ _
    exact ⟨_, rfl⟩
  | succ fuel ih =>
    intro i devs cleared hlen hmono
    by_cases hfi : foundIdx ports st i = true
    · have hmem := foundIdx_true_mem hfi
      have hcheck : i < (devs ++ [mkDevice st i]).length := by
        simp only [List.length_append, List.length_cons, List.length_nil]
        omega
      simp only [loadFrom, loadStep, hmem, if_true, hcheck]
      exact ih (i + 1) (devs ++ [mkDevice st i]) cleared
        (by simp only [List.length_append, List.length_cons, List.length_nil]; omega)
        (fun k k' hkk hk' hf => by
          have ha : i + 1 + k = i + (k + 1) := by omega
          have hb : i + 1 + k' = i + (k' + 1) := by omega
          rw [ha]
          rw [hb] at hf
          exact hmono (k + 1) (k' + 1) (by omega) (by omega) hf)
    · have hall : ∀ k, k < fuel + 1 → foundIdx ports st (i + k) = false := by
        intro k hk
        by_contra hcon
        have hfk : foundIdx ports st (i + k) = true := by
          cases h : foundIdx ports st (i + k)
          · exact absurd h hcon
          · rfl
        have := hmono 0 k (Nat.zero_le _) hk hfk
        simp at this
        exact hfi (by simpa using this)
      rw [loadFrom_all_missed ports st (fuel + 1) i devs cleared hall]
      exact ⟨_, rfl⟩

theorem foundDevs_handles (ports : List String) (st : MidiSettings) (fuel : Nat) :
    ∀ i, ∀ d ∈ foundDevs ports st i fuel, d.midi_in = false ∧ d.midi_out = false := by
  induction fuel with
  | zero =>
    intro i d hd
    simp [foundDevs] at hd
  | succ fuel ih =>
    intro i d hd
    simp only [foundDevs, List.mem_append] at hd
    rcases hd with hd | hd
    · by_cases hfi : foundIdx ports st i = true <;> simp [hfi, mkDevice] at hd
      subst hd
      exact ⟨rfl, rfl⟩
    · exact ih (i + 1) d hd

/-- C6 counterexample: (1) a fresh load over a not-found slot followed by a
found slot raises `IndexError` (the debug print indexes `midi_devices[i]`
with `i` ahead of the shortened table), so loading does *not* complete
without error for every mix; (2) a single not-found device produces an empty
device table — no configuration-only stub is added, the slot is only
recorded for the `"---"` settings overwrite. -/
theorem c6_midi_load_counterexample :
    script_load_devices ["P"]
        ⟨2, fun i => if i = 0 then "Q" else "P", fun _ => "", fun _ => ""⟩ =
      .error .indexError ∧
    script_load_devices ["P"] ⟨1, fun _ => "Q", fun _ => "", fun _ => ""⟩ =
      .ok ([], [0]) := by
  constructor <;> rfl

/-- C6 amended: on a fresh load, devices whose saved port name is found are
appended to the table in slot order with no handles opened, while slots whose
saved port name is absent are *not* loaded into the table at all — they are
only recorded for the `"---"` settings overwrite; loading completes without
error when the found slots are downward closed (no found slot after a
not-found one), and raises `IndexError` whenever some not-found slot precedes
a found slot. -/
theorem c6_midi_load (ports : List String) (st : MidiSettings) :
    ((∀ j i, j ≤ i → i < st.number_of_devices → foundIdx ports st i = true →
        foundIdx ports st j = true) →
      script_load_devices ports st =
        .ok (foundDevs ports st 0 st.number_of_devices,
             missedIdxs ports st 0 st.number_of_devices)) ∧
    (∀ j i, j < i → i < st.number_of_devices → foundIdx ports st j = false →
        foundIdx ports st i = true →
      script_load_devices ports st = .error .indexError) ∧
    (∀ devs cleared, script_load_devices ports st = .ok (devs, cleared) →
      devs = foundDevs ports st 0 st.number_of_devices ∧
      cleared = missedIdxs ports st 0 st.number_of_devices ∧
      ∀ d ∈ devs, d.midi_in = false ∧ d.midi_out = false) := by
  refine ⟨?_, ?_, ?_⟩
  · intro hclosed
    obtain ⟨r, hr⟩ := loadFrom_ok_of_closed ports st st.number_of_devices 0 [] [] rfl
      (fun k k' hkk hk' hf => by
        have h2 := hclosed k k' hkk hk' (by simpa using hf)
        simpa using h2)
    obtain ⟨devs, cleared⟩ := r
    obtain ⟨h1, h2⟩ := loadFrom_ok_shape ports st st.number_of_devices 0 [] [] devs cleared hr
    rw [script_load_devices, hr, h1, h2]
    simp
  · intro j i hji hi hmiss hfound
    exact loadFrom_error_of_gap ports st st.number_of_devices 0 [] [] (by simp)
      ⟨j, i, hji, hi, by simpa using hmiss, by simpa using hfound⟩
  · intro devs cleared h
    obtain ⟨h1, h2⟩ := loadFrom_ok_shape ports st st.number_of_devices 0 [] [] devs cleared h
    simp at h1 h2
    exact ⟨h1, h2, fun d hd => foundDevs_handles ports st st.number_of_devices 0 d
      (h1 ▸ hd)⟩

/-- Witness for C6 amended: one found device loads as the whole table with no
handles open and nothing cleared. -/
theorem c6_midi_load_witness :
    script_load_devices ["P"] ⟨1, fun _ => "P", fun _ => "bs", fun _ => ""⟩ =
      .ok ([⟨"MIDI Device 1", some "P", false, false, "bs", "midiDevice_0"⟩], []) :=
  (c6_midi_load ["P"] ⟨1, fun _ => "P", fun _ => "bs", fun _ => ""⟩).1
    (fun j i hji hi hf => by
      have hi1 : i < 1 := hi
      have hi0 : i = 0 := by omega
      have hj0 : j = 0 := by omega
      subst hi0
      subst hj0
      exact hf)
